import Mathlib

/-!
Shallow embedding of the metrics-aggregation logic of the analytics dashboard
(`src/components/dashboard/ExecutiveSummarySection.tsx` and the second,
unnamed `ExecutiveSummarySection` variant).

Conventions of the embedding:
* JavaScript numbers are modelled as `ℚ`; a field that may be absent
  (`undefined`) is `Option ℚ` / `Option String`.
* `x || d` on a possibly-absent string (falsy on `undefined`, `null`, `""`)
  is `strOr`; `x || 0` on a possibly-absent number is `numOr0`
  (for a numeric default of `0`, the JS falsy-`0` case coincides with
  keeping the value).
* A JS object literal used as a string-keyed accumulator preserves
  insertion order of its keys; it is modelled as an association list
  (`List (String × β)`), built by `groupFold`.
* `Array.prototype.sort` with the comparator `(a, b) => key(b) - key(a)`
  is (per ES2019 stability) a stable descending sort by `key`; it is
  modelled by `List.insertionSort (keyGe key)`, which is stable.
  The sort happens **in place**: the post-call contents of the sorted
  array are modelled separately where a claim depends on that.
* JS division by zero yields `NaN`/`±Infinity`, not a number; where a
  claim depends on this it is modelled by `jsDiv : ℚ → ℚ → Option ℚ`
  (`none` = not a finite number).  Divisions that the code only reaches
  with a provably non-zero denominator use plain `ℚ` division.
-/

/-! ### Records (data model) -/

/-- A sales transaction row, fields as read by the dashboard code. -/
structure Sale where
  paymentValue : Option ℚ
  paymentVAT : Option ℚ
  memberId : Option String
  calculatedLocation : Option String
  cleanedProduct : Option String
  cleanedCategory : Option String
deriving DecidableEq, Repr

/-- A class-session row. -/
structure Session where
  classType : Option String
  cleanedClass : Option String
  checkedInCount : Option ℚ
  capacity : Option ℚ
  fillPercentage : Option ℚ
deriving DecidableEq, Repr

/-- A trainer payroll row. -/
structure PayrollRecord where
  teacherId : Option String
  teacherName : Option String
  totalSessions : Option ℚ
  totalCustomers : Option ℚ
  totalPaid : Option ℚ
  retention : Option String
deriving DecidableEq, Repr

/-- A new-client row. -/
structure Client where
  conversionStatus : Option String
  retentionStatus : Option String
  ltv : Option ℚ
deriving DecidableEq, Repr

/-! ### JS-semantics helpers -/

/-- JS `x || d` for a possibly-absent string: `undefined`, `null` and the
empty string are falsy and fall through to the default. -/
def strOr (o : Option String) (d : String) : String :=
  match o with
  | none => d
  | some s => if s = "" then d else s

/-- JS `x || 0` for a possibly-absent number (`undefined → 0`; a stored `0`
also maps to `0`, so the falsy-zero case coincides). -/
def numOr0 (o : Option ℚ) : ℚ :=
  match o with
  | none => 0
  | some v => v

/-- JS division, `none` standing for the non-finite results
`NaN` / `±Infinity` produced by a zero denominator. -/
def jsDiv (a b : ℚ) : Option ℚ :=
  if b = 0 then none else some (a / b)

/-- `Math.max(...l)`: `none` models `-Infinity` on the empty spread. -/
def mathMax (l : List ℚ) : Option ℚ :=
  match l with
  | [] => none
  | x :: xs => some (xs.foldl max x)

/-- JS `Set.prototype.add`: append iff not already present. -/
def insertSet {α : Type} [DecidableEq α] (x : α) (l : List α) : List α :=
  if x ∈ l then l else l ++ [x]

/-- `new Set(xs)`: insert the elements in order. -/
def setFromList {α : Type} [DecidableEq α] (l : List α) : List α :=
  l.foldl (fun s x => insertSet x s) []

/-! ### String-keyed accumulator objects (`reduce((acc, s) => ..., {})`) -/

/-- Property read `acc[k]` on an association list. -/
def lookupA {β : Type} (k : String) : List (String × β) → Option β
  | [] => none
  | (k₁, v) :: t => if k₁ = k then some v else lookupA k t

/-- In-place update of the (first) entry with key `k`. -/
def updateAssoc {β : Type} (k : String) (f : β → β) : List (String × β) → List (String × β)
  | [] => []
  | (k₁, v) :: t => if k₁ = k then (k₁, f v) :: t else (k₁, v) :: updateAssoc k f t

/-- One step of the grouping reduce:
`const k = key(s); if (!acc[k]) acc[k] = init(k, s); acc[k] = step(acc[k], s)`. -/
def gstep {σ β : Type} (key : σ → String) (init : String → σ → β) (step : β → σ → β)
    (acc : List (String × β)) (s : σ) : List (String × β) :=
  let k := key s
  if (lookupA k acc).isSome then updateAssoc k (fun v => step v s) acc
  else acc ++ [(k, step (init k s) s)]

/-- The grouping reduce pattern shared by every breakdown in the code. -/
def groupFold {σ β : Type} (key : σ → String) (init : String → σ → β) (step : β → σ → β)
    (l : List σ) : List (String × β) :=
  l.foldl (gstep key init step) []

/-! ### Stable descending sort by a rational key -/

/-- `keyGe f a b` holds when `a`'s key is at least `b`'s key; sorting by this
relation with a stable sort models `Array.prototype.sort` with the JS
comparator `(a, b) => f(b) - f(a)` (descending, ties in original order). -/
def keyGe {α : Type} (f : α → ℚ) (a b : α) : Prop := f b ≤ f a

instance {α : Type} (f : α → ℚ) : DecidableRel (keyGe f) :=
  fun a b => inferInstanceAs (Decidable (f b ≤ f a))

instance {α : Type} (f : α → ℚ) : IsTotal α (keyGe f) :=
  ⟨fun a b => le_total (f b) (f a)⟩

instance {α : Type} (f : α → ℚ) : IsTrans α (keyGe f) :=
  ⟨fun _ _ _ h1 h2 => le_trans h2 h1⟩

/-! ### Sales metrics (`ExecutiveSummarySection.tsx`, `salesMetrics`) -/

/-- `salesData.reduce((sum, item) => sum + (item.paymentValue || 0), 0)`. -/
def totalRevenue (l : List Sale) : ℚ :=
  l.foldl (fun sum item => sum + numOr0 item.paymentValue) 0

/-- `salesData.reduce((sum, item) => sum + (item.paymentVAT || 0), 0)`. -/
def totalVAT (l : List Sale) : ℚ :=
  l.foldl (fun sum item => sum + numOr0 item.paymentVAT) 0

/-- `new Set(salesData.map(item => item.memberId)).size`. -/
def uniqueMembers (l : List Sale) : ℕ :=
  (setFromList (l.map (fun item => item.memberId))).length

/-- Grouping key `item.calculatedLocation || 'Unknown'`. -/
def locKey (item : Sale) : String := strOr item.calculatedLocation "Unknown"

/-- Per-location accumulator `{ revenue, transactions, members }`. -/
structure LocGroup where
  revenue : ℚ
  transactions : ℕ
  members : List (Option String)
deriving DecidableEq, Repr

/-- The `locationBreakdown` reduce of `salesMetrics`. -/
def locationBreakdownGroups (l : List Sale) : List (String × LocGroup) :=
  groupFold locKey (fun _ _ => ⟨0, 0, []⟩)
    (fun g item =>
      ⟨g.revenue + numOr0 item.paymentValue, g.transactions + 1,
        insertSet item.memberId g.members⟩) l

/-- One row of the rendered location breakdown. -/
structure LocSummary where
  name : String
  revenue : ℚ
  transactions : ℕ
  members : ℕ
deriving DecidableEq, Repr

/-- `Object.entries(locationBreakdown).map(([name, data]) => ...)`. -/
def locationBreakdown (l : List Sale) : List LocSummary :=
  (locationBreakdownGroups l).map fun p =>
    ⟨p.1, p.2.revenue, p.2.transactions, p.2.members.length⟩

/-- The result object of `salesMetrics` (the `monthlyTrends` field is
omitted: it depends on the wall-clock date and no claim concerns it). -/
structure SalesMetrics where
  totalRevenue : ℚ
  netRevenue : ℚ
  totalTransactions : ℕ
  uniqueMembers : ℕ
  averageTicketValue : ℚ
  totalVAT : ℚ
  locationBreakdown : List LocSummary
deriving Repr

/-- `salesMetrics`: `if (!salesData?.length) return null;` then the
aggregations (`none` on the outside models a `null`/`undefined` array). -/
def salesMetricsOpt (d : Option (List Sale)) : Option SalesMetrics :=
  match d with
  | none => none
  | some l =>
    if l.length = 0 then none
    else
      some
        { totalRevenue := totalRevenue l
          netRevenue := totalRevenue l - totalVAT l
          totalTransactions := l.length
          uniqueMembers := uniqueMembers l
          averageTicketValue := totalRevenue l / (l.length : ℚ)
          totalVAT := totalVAT l
          locationBreakdown := locationBreakdown l }

/-! ### Session metrics (`ExecutiveSummarySection.tsx`, `sessionMetrics`) -/

/-- `sessionsData.reduce((sum, session) => sum + (session.checkedInCount || 0), 0)`
(the `totalBookings` accumulation). -/
def totalBookings (l : List Session) : ℚ :=
  l.foldl (fun sum session => sum + numOr0 session.checkedInCount) 0

/-- The `totalCheckins` accumulation — textually the same reduction over
`checkedInCount` as `totalBookings`. -/
def totalCheckins (l : List Session) : ℚ :=
  l.foldl (fun sum session => sum + numOr0 session.checkedInCount) 0

/-- `totalBookings > 0 ? (totalCheckins / totalBookings) * 100 : 0`. -/
def attendanceRate (l : List Session) : ℚ :=
  if 0 < totalBookings l then totalCheckins l / totalBookings l * 100 else 0

/-- Grouping key `session.cleanedClass || session.classType || 'Unknown'`. -/
def classKey (session : Session) : String :=
  strOr session.cleanedClass (strOr session.classType "Unknown")

/-- Per-class-type accumulator `{ sessions, bookings, checkins }`. -/
structure ClassTypeGroup where
  sessions : ℕ
  bookings : ℚ
  checkins : ℚ
deriving DecidableEq, Repr

/-- The `classTypeBreakdown` reduce followed by
`Object.entries(...).slice(0, 5)`.  Note that **both** `bookings` and
`checkins` accumulate `session.checkedInCount || 0`. -/
def classTypeBreakdown (l : List Session) : List (String × ClassTypeGroup) :=
  (groupFold classKey (fun _ _ => ⟨0, 0, 0⟩)
    (fun g session =>
      ⟨g.sessions + 1, g.bookings + numOr0 session.checkedInCount,
        g.checkins + numOr0 session.checkedInCount⟩) l).take 5

/-- The fill-rate cell of the class-type table:
`data.bookings > 0 ? (data.checkins / data.bookings) * 100 : 0` (the code
renders it via `toFixed(1) + '%'`; the numeric value is modelled). -/
def fillRateOf (g : ClassTypeGroup) : ℚ :=
  if 0 < g.bookings then g.checkins / g.bookings * 100 else 0

/-- The result object of `sessionMetrics`. -/
structure SessionMetrics where
  totalSessions : ℕ
  totalBookings : ℚ
  totalCheckins : ℚ
  averageFillRate : ℚ
  attendanceRate : ℚ
  classTypeBreakdown : List (String × ClassTypeGroup)
deriving Repr

/-- `sessionMetrics` with its `if (!sessionsData?.length) return null` guard. -/
def sessionMetricsOpt (d : Option (List Session)) : Option SessionMetrics :=
  match d with
  | none => none
  | some l =>
    if l.length = 0 then none
    else
      some
        { totalSessions := l.length
          totalBookings := totalBookings l
          totalCheckins := totalCheckins l
          averageFillRate :=
            (l.foldl (fun sum session => sum + numOr0 session.fillPercentage) 0) /
              (l.length : ℚ)
          attendanceRate := attendanceRate l
          classTypeBreakdown := classTypeBreakdown l }

/-! ### Trainer metrics (`ExecutiveSummarySection.tsx`, `trainerMetrics`) -/

/-- The ranking key of the `topTrainers` comparator:
`(b.totalCustomers || 0) - (a.totalCustomers || 0)`. -/
def custKey (trainer : PayrollRecord) : ℚ := numOr0 trainer.totalCustomers

/-- The contents of the `payrollData` array after
`payrollData.sort((a, b) => (b.totalCustomers || 0) - (a.totalCustomers || 0))`:
`Array.prototype.sort` sorts **in place**, so the array itself now holds the
stable descending order. -/
def payrollSorted (l : List PayrollRecord) : List PayrollRecord :=
  List.insertionSort (keyGe custKey) l

/-- One row of the rendered top-trainers table. -/
structure TrainerTop where
  name : Option String
  customers : ℚ
  sessions : ℚ
  retention : String
deriving DecidableEq, Repr

/-- `payrollData.sort(...).slice(0, 5).map(trainer => ({...}))`. -/
def topTrainers (l : List PayrollRecord) : List TrainerTop :=
  ((payrollSorted l).take 5).map fun trainer =>
    ⟨trainer.teacherName, numOr0 trainer.totalCustomers,
      numOr0 trainer.totalSessions, strOr trainer.retention "N/A"⟩

/-- `payrollData.reduce((sum, trainer) => sum + (trainer.totalSessions || 0), 0)`. -/
def trainerTotalSessions (l : List PayrollRecord) : ℚ :=
  l.foldl (fun sum trainer => sum + numOr0 trainer.totalSessions) 0

/-- `payrollData.reduce((sum, trainer) => sum + (trainer.totalCustomers || 0), 0)`. -/
def trainerTotalCustomers (l : List PayrollRecord) : ℚ :=
  l.foldl (fun sum trainer => sum + numOr0 trainer.totalCustomers) 0

/-- `totalSessions > 0 ? totalCustomers / totalSessions : 0`. -/
def averageClassSize (l : List PayrollRecord) : ℚ :=
  if 0 < trainerTotalSessions l then trainerTotalCustomers l / trainerTotalSessions l else 0

/-- The result object of `trainerMetrics`. -/
structure TrainerMetrics where
  totalTrainers : ℕ
  totalSessions : ℚ
  totalCustomers : ℚ
  averageClassSize : ℚ
  topTrainers : List TrainerTop
deriving Repr

/-- `trainerMetrics` with its `if (!payrollData?.length) return null` guard. -/
def trainerMetricsOpt (d : Option (List PayrollRecord)) : Option TrainerMetrics :=
  match d with
  | none => none
  | some l =>
    if l.length = 0 then none
    else
      some
        { totalTrainers := (setFromList (l.map (fun trainer => trainer.teacherId))).length
          totalSessions := trainerTotalSessions l
          totalCustomers := trainerTotalCustomers l
          averageClassSize := averageClassSize l
          topTrainers := topTrainers l }

/-! ### Client metrics (`ExecutiveSummarySection.tsx`, `clientMetrics`) -/

/-- The result object of `clientMetrics`. -/
structure ClientMetrics where
  totalNewClients : ℕ
  convertedClients : ℕ
  retainedClients : ℕ
  conversionRate : ℚ
  retentionRate : ℚ
  averageLTV : ℚ
deriving Repr

/-- `clientMetrics` with its `if (!clientData?.length) return null` guard. -/
def clientMetricsOpt (d : Option (List Client)) : Option ClientMetrics :=
  match d with
  | none => none
  | some l =>
    if l.length = 0 then none
    else
      some
        { totalNewClients := l.length
          convertedClients :=
            (l.filter (fun client => decide (client.conversionStatus = some "Converted"))).length
          retainedClients :=
            (l.filter (fun client => decide (client.retentionStatus = some "Retained"))).length
          conversionRate :=
            ((l.filter (fun client => decide (client.conversionStatus = some "Converted"))).length : ℚ) /
              (l.length : ℚ) * 100
          retentionRate :=
            ((l.filter (fun client => decide (client.retentionStatus = some "Retained"))).length : ℚ) /
              (l.length : ℚ) * 100
          averageLTV :=
            (l.foldl (fun sum client => sum + numOr0 client.ltv) 0) / (l.length : ℚ) }

/-! ### The unnamed second `ExecutiveSummarySection` variant -/

/-- Per-location accumulator `{ name, value, count }` of `locationData`. -/
structure LocPerf where
  name : String
  value : ℚ
  count : ℕ
deriving DecidableEq, Repr

/-- The `locationData` reduce: key `sale.calculatedLocation || 'Unknown'`,
fresh group `{ name: location, value: 0, count: 0 }`. -/
def locationData (l : List Sale) : List (String × LocPerf) :=
  groupFold locKey (fun k _ => ⟨k, 0, 0⟩)
    (fun g sale => ⟨g.name, g.value + numOr0 sale.paymentValue, g.count + 1⟩) l

/-- `Object.values(locationData).slice(0, 4)`. -/
def locations (l : List Sale) : List LocPerf :=
  ((locationData l).map Prod.snd).take 4

/-- The progress-bar value rendered per location:
`(location.value / Math.max(...locations.map(l => l.value))) * 100`.
The division is **not** guarded, so a zero maximum yields `NaN`
(modelled as `none`). -/
def locationProgress (l : List Sale) (loc : LocPerf) : Option ℚ :=
  match mathMax ((locations l).map (fun p => p.value)) with
  | none => none
  | some m => (jsDiv loc.value m).map (fun q => q * 100)

/-- Per-product accumulator `{ name, revenue, quantity }` of `productData`. -/
structure ProdPerf where
  name : String
  revenue : ℚ
  quantity : ℕ
deriving DecidableEq, Repr

/-- Grouping key `sale.cleanedProduct || 'Unknown'`. -/
def prodKey (sale : Sale) : String := strOr sale.cleanedProduct "Unknown"

/-- The `productData` reduce. -/
def productData (l : List Sale) : List (String × ProdPerf) :=
  groupFold prodKey (fun k _ => ⟨k, 0, 0⟩)
    (fun g sale => ⟨g.name, g.revenue + numOr0 sale.paymentValue, g.quantity + 1⟩) l

/-- `Object.values(productData).sort((a, b) => b.revenue - a.revenue).slice(0, 5)`. -/
def topProducts (l : List Sale) : List ProdPerf :=
  (List.insertionSort (keyGe (fun g => g.revenue)) ((productData l).map Prod.snd)).take 5

/-- Grouping key of the sales-by-category pie:
`sale.cleanedCategory || 'Other'` — the fallback here is `'Other'`,
not `'Unknown'`. -/
def categoryKey (sale : Sale) : String := strOr sale.cleanedCategory "Other"

/-- Per-category accumulator `{ name, value }` of the pie-chart reduce. -/
structure CatGroup where
  name : String
  value : ℚ
deriving DecidableEq, Repr

/-- The sales-by-category pie reduce. -/
def categoryBreakdown (l : List Sale) : List (String × CatGroup) :=
  groupFold categoryKey (fun k _ => ⟨k, 0⟩)
    (fun g sale => ⟨g.name, g.value + numOr0 sale.paymentValue⟩) l

/-- The Average Transaction metric:
`totalRevenue / (salesData?.length || 1)`. -/
def avgTransaction (l : List Sale) : ℚ :=
  totalRevenue l / (if l.length = 0 then 1 else (l.length : ℚ))

/-! ### Helper lemmas: folded sums and JS sets -/

theorem foldl_add_eq_sum {σ : Type} (g : σ → ℚ) (l : List σ) (a : ℚ) :
    l.foldl (fun sum x => sum + g x) a = a + (l.map g).sum := by
  induction l generalizing a with
  | nil => simp
  | cons x t ih => simp [ih, add_assoc]

theorem mem_insertSet {α : Type} [DecidableEq α] (a x : α) (l : List α) :
    a ∈ insertSet x l ↔ a ∈ l ∨ a = x := by
  by_cases h : x ∈ l
  · simp only [insertSet, if_pos h]
    exact ⟨Or.inl, fun h2 => h2.elim id fun e => e ▸ h⟩
  · simp [insertSet, if_neg h]

theorem nodup_insertSet {α : Type} [DecidableEq α] (x : α) {l : List α} (h : l.Nodup) :
    (insertSet x l).Nodup := by
  by_cases hm : x ∈ l
  · simpa only [insertSet, if_pos hm] using h
  · simp only [insertSet, if_neg hm]
    exact List.Nodup.append h (List.nodup_singleton x) (by simpa using hm)

theorem mem_setFromList_aux {α : Type} [DecidableEq α] (a : α) (l acc : List α) :
    a ∈ l.foldl (fun s x => insertSet x s) acc ↔ a ∈ acc ∨ a ∈ l := by
  induction l generalizing acc with
  | nil => simp
  | cons x t ih => simp [ih, mem_insertSet, or_assoc]

theorem nodup_setFromList_aux {α : Type} [DecidableEq α] (l : List α) {acc : List α}
    (h : acc.Nodup) : (l.foldl (fun s x => insertSet x s) acc).Nodup := by
  induction l generalizing acc with
  | nil => simpa using h
  | cons x t ih => exact ih (nodup_insertSet x h)

theorem setFromList_length_eq_card {α : Type} [DecidableEq α] (l : List α) :
    (setFromList l).length = l.toFinset.card := by
  have hnd : (setFromList l).Nodup := nodup_setFromList_aux l List.nodup_nil
  have hset : (setFromList l).toFinset = l.toFinset := by
    ext a
    simp [List.mem_toFinset, setFromList, mem_setFromList_aux]
  rw [← List.toFinset_card_of_nodup hnd, hset]

/-! ### Helper lemmas: association lists and the grouping reduce -/

theorem lookupA_updateAssoc_self {β : Type} (k : String) (f : β → β)
    (l : List (String × β)) :
    lookupA k (updateAssoc k f l) = (lookupA k l).map f := by
  induction l with
  | nil => rfl
  | cons p t ih =>
    obtain ⟨k1, v⟩ := p
    by_cases h : k1 = k
    · simp [updateAssoc, lookupA, h]
    · simp [updateAssoc, lookupA, h, ih]

theorem lookupA_updateAssoc_ne {β : Type} {k k2 : String} (h : k2 ≠ k) (f : β → β)
    (l : List (String × β)) :
    lookupA k2 (updateAssoc k f l) = lookupA k2 l := by
  induction l with
  | nil => rfl
  | cons p t ih =>
    obtain ⟨k1, v⟩ := p
    by_cases h1 : k1 = k
    · subst h1
      have h2 : ¬ (k1 = k2) := fun e => h e.symm
      simp [updateAssoc, lookupA, h2]
    · simp [updateAssoc, lookupA, h1, ih]

theorem lookupA_append_single {β : Type} (k : String) (l : List (String × β))
    (p : String × β) :
    lookupA k (l ++ [p]) =
      match lookupA k l with
      | some v => some v
      | none => if p.1 = k then some p.2 else none := by
  induction l with
  | nil => cases p; rfl
  | cons q t ih =>
    obtain ⟨k1, v⟩ := q
    by_cases h : k1 = k
    · simp [lookupA, h]
    · simpa [lookupA, h] using ih

theorem lookupA_gstep_self {σ β : Type} (key : σ → String) (init : String → σ → β)
    (step : β → σ → β) (acc : List (String × β)) (s : σ) :
    lookupA (key s) (gstep key init step acc s) =
      some
        (match lookupA (key s) acc with
         | some v => step v s
         | none => step (init (key s) s) s) := by
  cases h : lookupA (key s) acc with
  | some v =>
    simp only [gstep, h, Option.isSome_some, if_true]
    rw [lookupA_updateAssoc_self, h]
    rfl
  | none =>
    simp only [gstep, h, Option.isSome_none]
    rw [if_neg (by simp), lookupA_append_single, h]
    simp

theorem lookupA_gstep_ne {σ β : Type} (key : σ → String) (init : String → σ → β)
    (step : β → σ → β) {k : String} (acc : List (String × β)) (s : σ)
    (h : key s ≠ k) :
    lookupA k (gstep key init step acc s) = lookupA k acc := by
  cases hx : lookupA (key s) acc with
  | some v =>
    simp only [gstep, hx, Option.isSome_some, if_true]
    exact lookupA_updateAssoc_ne h.symm _ acc
  | none =>
    simp only [gstep, hx, Option.isSome_none]
    rw [if_neg (by simp), lookupA_append_single]
    cases hy : lookupA k acc <;> simp [hy, h]

/-- Characterisation of the grouping reduce: the value stored under key `k`
is exactly the `step`-fold over the records whose key is `k`, seeded from
`init` by the first such record, and no value is stored when no record has
key `k`. -/
theorem lookupA_foldl_gstep {σ β : Type} (key : σ → String) (init : String → σ → β)
    (step : β → σ → β) (k : String) (l : List σ) :
    ∀ acc : List (String × β),
      lookupA k (l.foldl (gstep key init step) acc) =
        match lookupA k acc with
        | some v => some ((l.filter fun s => decide (key s = k)).foldl step v)
        | none =>
          match l.filter (fun s => decide (key s = k)) with
          | [] => none
          | s0 :: rest => some (rest.foldl step (step (init k s0) s0)) := by
  induction l with
  | nil =>
    intro acc
    cases h : lookupA k acc <;> simp [h]
  | cons s t ih =>
    intro acc
    rw [List.foldl_cons, ih]
    by_cases hk : key s = k
    · subst hk
      cases hacc : lookupA (key s) acc with
      | some v =>
        rw [lookupA_gstep_self, hacc]
        simp [List.filter_cons]
      | none =>
        rw [lookupA_gstep_self, hacc]
        simp [List.filter_cons]
    · rw [lookupA_gstep_ne key init step acc s hk]
      simp [List.filter_cons, hk]

/-- Specialisation to the whole `groupFold` (empty initial accumulator). -/
theorem lookupA_groupFold {σ β : Type} (key : σ → String) (init : String → σ → β)
    (step : β → σ → β) (k : String) (l : List σ) :
    lookupA k (groupFold key init step l) =
      match l.filter (fun s => decide (key s = k)) with
      | [] => none
      | s0 :: rest => some (rest.foldl step (step (init k s0) s0)) := by
  rw [groupFold, lookupA_foldl_gstep]
  rfl

/-- Every record of the input is assigned to the group keyed by its own
grouping key. -/
theorem lookupA_groupFold_isSome {σ β : Type} (key : σ → String)
    (init : String → σ → β) (step : β → σ → β) {l : List σ} {s : σ} (hs : s ∈ l) :
    (lookupA (key s) (groupFold key init step l)).isSome = true := by
  rw [lookupA_groupFold]
  have hmem : s ∈ l.filter (fun x => decide (key x = key s)) :=
    List.mem_filter.mpr ⟨hs, by simp⟩
  cases hfil : l.filter (fun x => decide (key x = key s)) with
  | nil => rw [hfil] at hmem; cases hmem
  | cons s0 rest => simp

/-! ### Helper lemmas: stability and order of the modelled sort -/

theorem filter_orderedInsert_keyGe_eq {α : Type} (f : α → ℚ) {k : ℚ} {a : α}
    (ha : f a = k) (l : List α) :
    (List.orderedInsert (keyGe f) a l).filter (fun x => decide (f x = k)) =
      a :: l.filter (fun x => decide (f x = k)) := by
  induction l with
  | nil => simp [List.orderedInsert, ha]
  | cons b t ih =>
    by_cases h : keyGe f a b
    · simp [List.orderedInsert, h, List.filter_cons, ha]
    · have hbk : ¬ (f b = k) := fun e => h (le_of_eq (e.trans ha.symm))
      simp [List.orderedInsert, h, List.filter_cons, hbk, ih]

theorem filter_orderedInsert_keyGe_ne {α : Type} (f : α → ℚ) {k : ℚ} {a : α}
    (ha : ¬ (f a = k)) (l : List α) :
    (List.orderedInsert (keyGe f) a l).filter (fun x => decide (f x = k)) =
      l.filter (fun x => decide (f x = k)) := by
  induction l with
  | nil => simp [List.orderedInsert, ha]
  | cons b t ih =>
    by_cases h : keyGe f a b
    · simp [List.orderedInsert, h, List.filter_cons, ha]
    · simp [List.orderedInsert, h, List.filter_cons, ih]

/-- Stability of the modelled sort: for every key value, the records carrying
that key appear in the sorted output exactly as they appear in the input. -/
theorem filter_insertionSort_keyGe {α : Type} (f : α → ℚ) (k : ℚ) (l : List α) :
    (List.insertionSort (keyGe f) l).filter (fun x => decide (f x = k)) =
      l.filter (fun x => decide (f x = k)) := by
  induction l with
  | nil => rfl
  | cons a t ih =>
    by_cases ha : f a = k
    · rw [List.insertionSort, filter_orderedInsert_keyGe_eq f ha, ih, List.filter_cons]
      simp [ha]
    · rw [List.insertionSort, filter_orderedInsert_keyGe_ne f ha, ih, List.filter_cons]
      simp [ha]

/-- After the modelled sort, every record kept by `take n` has a key at least
as large as every record discarded by `drop n`. -/
theorem sortedTake_all_ge {α : Type} (f : α → ℚ) (n : ℕ) (l : List α) :
    (((List.insertionSort (keyGe f) l).drop n).all
      fun y => ((List.insertionSort (keyGe f) l).take n).all
        fun x => decide (f y ≤ f x)) = true := by
  have hs : List.Pairwise (keyGe f) (List.insertionSort (keyGe f) l) :=
    List.sorted_insertionSort (keyGe f) l
  rw [← List.take_append_drop n (List.insertionSort (keyGe f) l)] at hs
  have h3 := (List.pairwise_append.mp hs).2.2
  simp only [List.all_eq_true, decide_eq_true_eq]
  intro y hy x hx
  exact h3 x hx y hy

/-- Summing the revenue component of the location-group fold. -/
theorem foldl_locStep_revenue (m : List Sale) (b : LocGroup) :
    (m.foldl (fun g item =>
        LocGroup.mk (g.revenue + numOr0 item.paymentValue) (g.transactions + 1)
          (insertSet item.memberId g.members)) b).revenue =
      b.revenue + (m.map fun item => numOr0 item.paymentValue).sum := by
  induction m generalizing b with
  | nil => simp
  | cons x t ih => simp [ih, add_assoc]

/-! ### Concrete records used in evaluations and witnesses -/

/-- A sale with only a location: no payment value, VAT, member, product or
category. -/
def saleBare : Sale := ⟨none, none, none, some "A", none, none⟩

/-- A payroll row with one total customer. -/
def trainerOneCustomer : PayrollRecord := ⟨some "t1", some "Ann", none, some 1, none, none⟩

/-- A payroll row with two total customers. -/
def trainerTwoCustomers : PayrollRecord := ⟨some "t2", some "Bea", none, some 2, none, none⟩

/-- A yoga session with 5 of 10 places checked in. -/
def yogaHalfFull : Session := ⟨some "Yoga", none, some 5, some 10, none⟩

/-- The contents of the `payrollData` array after `trainerMetrics` has been
evaluated: `payrollData.sort(...)` sorts the state array **in place**, so
the array now holds the sorted order rather than the fetched order. -/
def payrollDataAfterTrainerMetrics (l : List PayrollRecord) : List PayrollRecord :=
  payrollSorted l

/-! ### Claims -/

/-- C1: the top-trainers computation returns at most 5 entries; the sorted
payroll array is a permutation of the input, ordered descending by
`totalCustomers` (absent treated as 0) with ties kept in original encounter
order (stable: per key value the sorted order restricted to that key equals
the input order), every kept record ranks at least as high as every dropped
record, and the top-trainer rows are descending in `customers`; likewise
the top-products computation returns at most 5 entries ordered descending
by accumulated revenue. -/
theorem C1_top_n_rankings (pl : List PayrollRecord) (sl : List Sale) :
    (topTrainers pl).length ≤ 5 ∧
    (topTrainers pl).Pairwise (fun a b => b.customers ≤ a.customers) ∧
    (((payrollSorted pl).drop 5).all
      fun y => ((payrollSorted pl).take 5).all
        fun x => decide (custKey y ≤ custKey x)) = true ∧
    (payrollSorted pl).Perm pl ∧
    (∀ k : ℚ, (payrollSorted pl).filter (fun p => decide (custKey p = k)) =
      pl.filter fun p => decide (custKey p = k)) ∧
    (topProducts sl).length ≤ 5 ∧
    (topProducts sl).Pairwise fun a b => b.revenue ≤ a.revenue := by
  refine ⟨?_, ?_, ?_, ?_, ?_, ?_, ?_⟩
  · rw [topTrainers, List.length_map, List.length_take]
    exact min_le_left _ _
  · rw [topTrainers, List.pairwise_map]
    have hs : List.Pairwise (keyGe custKey) (payrollSorted pl) :=
      List.sorted_insertionSort (keyGe custKey) pl
    exact (hs.sublist (List.take_sublist 5 _)).imp fun h => h
  · exact sortedTake_all_ge custKey 5 pl
  · exact List.perm_insertionSort (keyGe custKey) pl
  · exact fun k => filter_insertionSort_keyGe custKey k pl
  · rw [topProducts, List.length_take]
    exact min_le_left _ _
  · have hs : List.Pairwise (keyGe fun g : ProdPerf => g.revenue)
        (List.insertionSort (keyGe fun g : ProdPerf => g.revenue)
          ((productData sl).map Prod.snd)) :=
      List.sorted_insertionSort _ _
    exact (hs.sublist (List.take_sublist 5 _)).imp fun h => h

/-- C2 (code bug evaluation): running the trainer-metrics computation on a
two-row payroll array re-orders the array itself — `Array.prototype.sort`
works in place — so the array after the computation differs from the input. -/
theorem C2_input_array_mutated :
    payrollDataAfterTrainerMetrics [trainerOneCustomer, trainerTwoCustomers] =
      [trainerTwoCustomers, trainerOneCustomer] ∧
    payrollDataAfterTrainerMetrics [trainerOneCustomer, trainerTwoCustomers] ≠
      [trainerOneCustomer, trainerTwoCustomers] := by
  constructor <;> decide

/-- C3 counterexample: on a sales array whose only location has accumulated
revenue 0, the rendered per-location progress rate divides zero by a zero
maximum and produces no finite value (`NaN`), not 0 — so not every rate
computation is guarded against a zero denominator. -/
theorem C3_counterexample_progress_nan :
    locations [saleBare] = [⟨"A", 0, 1⟩] ∧
    locationProgress [saleBare] ⟨"A", 0, 1⟩ = none ∧
    locationProgress [saleBare] ⟨"A", 0, 1⟩ ≠ some 0 := by
  have h1 : locations [saleBare] = [⟨"A", 0, 1⟩] := by
    norm_num +decide [locations, locationData, groupFold, gstep, lookupA, updateAssoc,
      locKey, strOr, numOr0, saleBare]
  have h2 : locationProgress [saleBare] ⟨"A", 0, 1⟩ = none := by
    norm_num +decide [locationProgress, locations, locationData, groupFold, gstep,
      lookupA, updateAssoc, locKey, strOr, numOr0, saleBare, mathMax, jsDiv]
  exact ⟨h1, h2, by rw [h2]; simp⟩

/-- C3 (amended): the four named computations — attendance rate, average
class size, average transaction value and per-group fill rate — are each
guarded against a zero denominator and return 0 there; the per-location
progress rate is the exception recorded by the counterexample. -/
theorem C3_amended_guarded_rates (sl : List Session) (pl : List PayrollRecord)
    (sal : List Sale) (g : ClassTypeGroup) :
    (totalBookings sl = 0 → attendanceRate sl = 0) ∧
    (trainerTotalSessions pl = 0 → averageClassSize pl = 0) ∧
    (sal = [] → avgTransaction sal = 0) ∧
    (g.bookings = 0 → fillRateOf g = 0) := by
  refine ⟨fun h => ?_, fun h => ?_, fun h => ?_, fun h => ?_⟩
  · rw [attendanceRate, h]
    simp
  · rw [averageClassSize, h]
    simp
  · subst h
    rw [avgTransaction]
    norm_num [totalRevenue]
  · rw [fillRateOf, h]
    simp

/-- Witness for C3 (amended) at concrete empty inputs and a zero group. -/
theorem C3_amended_guarded_rates_witness :
    attendanceRate [] = 0 ∧ averageClassSize [] = 0 ∧ avgTransaction [] = 0 ∧
      fillRateOf ⟨0, 0, 0⟩ = 0 := by
  obtain ⟨h1, h2, h3, h4⟩ := C3_amended_guarded_rates [] [] [] ⟨0, 0, 0⟩
  exact ⟨h1 rfl, h2 rfl, h3 rfl, h4 rfl⟩

/-- C4: on an empty input array every grouping computation produces an empty
sequence of group summaries, and the top-N rankings are empty as well. -/
theorem C4_empty_input_empty_output :
    locationBreakdown [] = [] ∧ locationData [] = [] ∧ classTypeBreakdown [] = [] ∧
      productData [] = [] ∧ categoryBreakdown [] = [] ∧ topTrainers [] = [] ∧
      topProducts [] = [] :=
  ⟨rfl, rfl, rfl, rfl, rfl, rfl, rfl⟩

/-- C5: the total-revenue and total-VAT accumulations equal the arithmetic
sum of the named field over all records (absent values contributing 0), and
the revenue stored for any group of the location breakdown equals the sum
of `paymentValue` over exactly the records assigned to that group. -/
theorem C5_sum_totals (l : List Sale) :
    totalRevenue l = (l.map fun item => numOr0 item.paymentValue).sum ∧
    totalVAT l = (l.map fun item => numOr0 item.paymentVAT).sum ∧
    ∀ (k : String) (g : LocGroup),
      lookupA k (locationBreakdownGroups l) = some g →
        g.revenue =
          ((l.filter fun item => decide (locKey item = k)).map
            fun item => numOr0 item.paymentValue).sum := by
  refine ⟨?_, ?_, ?_⟩
  · rw [totalRevenue, foldl_add_eq_sum, zero_add]
  · rw [totalVAT, foldl_add_eq_sum, zero_add]
  · intro k g hg
    rw [locationBreakdownGroups, lookupA_groupFold] at hg
    cases hfil : l.filter (fun item => decide (locKey item = k)) with
    | nil =>
      rw [hfil] at hg
      cases hg
    | cons s0 rest =>
      rw [hfil] at hg
      simp only [] at hg
      injection hg with hg2
      rw [← hg2, foldl_locStep_revenue, List.map_cons, List.sum_cons]
      simp

/-- Witness for C5 at a concrete one-sale array and its only group. -/
theorem C5_sum_totals_witness :
    (LocGroup.mk 0 1 [none]).revenue =
      (([saleBare].filter fun item => decide (locKey item = "A")).map
        fun item => numOr0 item.paymentValue).sum := by
  refine (C5_sum_totals [saleBare]).2.2 "A" ⟨0, 1, [none]⟩ ?_
  norm_num +decide [locationBreakdownGroups, groupFold, gstep, lookupA, updateAssoc,
    locKey, strOr, numOr0, saleBare, insertSet]

/-- C6 counterexample: a sale with an absent category is grouped by the
sales-by-category pie reduce under the key `"Other"`, not `"Unknown"`. -/
theorem C6_counterexample_category_other :
    (categoryBreakdown [saleBare]).map Prod.fst = ["Other"] ∧
    ("Other" : String) ≠ "Unknown" := by
  constructor <;> decide

/-- C6 (amended): the location, product and class-type grouping keys default
to `"Unknown"` for an absent or empty field, every record is assigned to
the group keyed by its own grouping key, but the sales-by-category pie
grouping defaults to `"Other"` instead. -/
theorem C6_amended_grouping_defaults :
    (∀ item : Sale,
      item.calculatedLocation = none ∨ item.calculatedLocation = some "" →
        locKey item = "Unknown") ∧
    (∀ sale : Sale,
      sale.cleanedProduct = none ∨ sale.cleanedProduct = some "" →
        prodKey sale = "Unknown") ∧
    (∀ session : Session,
      session.cleanedClass = none ∨ session.cleanedClass = some "" →
        session.classType = none ∨ session.classType = some "" →
          classKey session = "Unknown") ∧
    (∀ sale : Sale,
      sale.cleanedCategory = none ∨ sale.cleanedCategory = some "" →
        categoryKey sale = "Other") ∧
    (∀ (l : List Sale) (item : Sale), item ∈ l →
      (lookupA (locKey item) (locationBreakdownGroups l)).isSome = true) := by
  refine ⟨?_, ?_, ?_, ?_, ?_⟩
  · rintro item (h | h) <;> simp [locKey, strOr, h]
  · rintro sale (h | h) <;> simp [prodKey, strOr, h]
  · rintro session (h1 | h1) (h2 | h2) <;> simp [classKey, strOr, h1, h2]
  · rintro sale (h | h) <;> simp [categoryKey, strOr, h]
  · intro l item h
    exact lookupA_groupFold_isSome locKey _ _ h

/-- Witness for C6 (amended) at concrete records with absent fields. -/
theorem C6_amended_grouping_defaults_witness :
    locKey ⟨none, none, none, none, none, none⟩ = "Unknown" ∧
    prodKey saleBare = "Unknown" ∧
    classKey ⟨none, none, none, none, none⟩ = "Unknown" ∧
    categoryKey saleBare = "Other" ∧
    (lookupA (locKey saleBare) (locationBreakdownGroups [saleBare])).isSome = true := by
  obtain ⟨h1, h2, h3, h4, h5⟩ := C6_amended_grouping_defaults
  exact ⟨h1 _ (Or.inl rfl), h2 saleBare (Or.inl rfl), h3 _ (Or.inl rfl) (Or.inl rfl),
    h4 saleBare (Or.inl rfl), h5 [saleBare] saleBare (by simp)⟩

/-- C7 (code bug evaluation): for a class-type group built from one session
with 5 of 10 places checked in, the displayed fill rate is 100 — `checkins`
divided by `bookings`, both of which accumulate `checkedInCount`, so
capacity is never read — whereas checked-in count over capacity is 50. -/
theorem C7_fill_rate_not_capacity_based :
    (classTypeBreakdown [yogaHalfFull]).map (fun p => (p.1, fillRateOf p.2)) =
      [("Yoga", 100)] ∧
    numOr0 yogaHalfFull.checkedInCount / numOr0 yogaHalfFull.capacity * 100 = 50 ∧
    (100 : ℚ) ≠ 50 := by
  refine ⟨?_, by norm_num [yogaHalfFull, numOr0], by norm_num⟩
  norm_num +decide [classTypeBreakdown, groupFold, gstep, lookupA, updateAssoc,
    classKey, strOr, numOr0, yogaHalfFull, fillRateOf]

/-- C8: the unique-members count equals the cardinality of the set of
distinct `memberId` values over all sales records. -/
theorem C8_unique_members_card (l : List Sale) :
    uniqueMembers l = (l.map fun item => item.memberId).toFinset.card :=
  setFromList_length_eq_card _

/-- C9: for a non-empty sessions array, `totalBookings` and `totalCheckins`
are the same sum of `checkedInCount`, so the attendance rate is exactly 100
whenever that sum is positive and 0 whenever it is zero. -/
theorem C9_bookings_eq_checkins (l : List Session) (h : l ≠ []) :
    totalBookings l = totalCheckins l ∧
    (0 < totalBookings l → attendanceRate l = 100) ∧
    (totalBookings l = 0 → attendanceRate l = 0) := by
  refine ⟨rfl, fun hpos => ?_, fun hz => ?_⟩
  · rw [attendanceRate, if_pos hpos]
    have heq : totalCheckins l = totalBookings l := rfl
    rw [heq, div_self (ne_of_gt hpos)]
    norm_num
  · rw [attendanceRate, hz]
    simp

/-- Witness for C9 at a concrete one-session array. -/
theorem C9_bookings_eq_checkins_witness :
    totalBookings [yogaHalfFull] = totalCheckins [yogaHalfFull] ∧
      attendanceRate [yogaHalfFull] = 100 := by
  obtain ⟨h1, h2, _⟩ := C9_bookings_eq_checkins [yogaHalfFull] (by simp)
  refine ⟨h1, h2 ?_⟩
  norm_num [totalBookings, yogaHalfFull, numOr0]

/-- C10: a `null`/`undefined` or empty input array makes each top-level
metrics computation return `null` — no metrics structure is produced. -/
theorem C10_null_guard :
    (∀ d : Option (List Sale), d = none ∨ d = some [] → salesMetricsOpt d = none) ∧
    (∀ d : Option (List Session), d = none ∨ d = some [] → sessionMetricsOpt d = none) ∧
    (∀ d : Option (List PayrollRecord), d = none ∨ d = some [] → trainerMetricsOpt d = none) ∧
    (∀ d : Option (List Client), d = none ∨ d = some [] → clientMetricsOpt d = none) := by
  refine ⟨?_, ?_, ?_, ?_⟩ <;> rintro d (rfl | rfl) <;> rfl

/-- Witness for C10 at `null` and empty inputs. -/
theorem C10_null_guard_witness :
    salesMetricsOpt none = none ∧ sessionMetricsOpt (some []) = none ∧
      trainerMetricsOpt none = none ∧ clientMetricsOpt (some []) = none := by
  obtain ⟨h1, h2, h3, h4⟩ := C10_null_guard
  exact ⟨h1 none (Or.inl rfl), h2 (some []) (Or.inr rfl), h3 none (Or.inl rfl),
    h4 (some []) (Or.inr rfl)⟩
